import Mathlib

/-
Verification of nodule.py, a layer giving attribute-style access to objects of a
3D-animation host application.  The host command layer (maya.cmds) is external
to the repository; it is modelled abstractly by the structure Host below, whose
fields stand for the host queries the source code performs.  State-changing host
commands issued by the code are recorded as HostCmd values; read-only queries
are not logged except for the attribute-type query, which is tracked by the
typeQueried flag because the spec speaks about it explicitly.
-/

namespace Nodule

/-- Python values passed to setters: numbers (floats and ints collapse to a
rational), strings, and numeric sequences.  This is the shape of the data the
claims exercise. -/
inductive PyVal
  | num (q : ℚ)
  | str (s : String)
  | seq (qs : List ℚ)
deriving DecidableEq

/-- Python int() conversion of a number: truncation toward zero. -/
def pyInt (q : ℚ) : Int := Int.tdiv q.num q.den

/-- Python bool() of a value (truthiness). -/
def pyTruthy : PyVal → Bool
  | PyVal.num q => q ≠ 0
  | PyVal.str s => s ≠ ""
  | PyVal.seq qs => qs ≠ []

/-- Python list.index over a list of strings: position of the first element
equal to the value; a non-string value is equal to no list element, so there is
no position (list.index raises ValueError, which set_enum_attr converts). -/
def pyIndexAux (s : String) : List String → Option Nat
  | [] => none
  | e :: rest => if e = s then some 0 else (pyIndexAux s rest).map (· + 1)

def pyIndex : PyVal → List String → Option Nat
  | PyVal.str s, xs => pyIndexAux s xs
  | _, _ => none

/-- ".".join((obj, at_name)) from the source: dotted plug name. -/
def dotted (obj at_name : String) : String := String.intercalate "." [obj, at_name]

/-- Helper for lastComponent: the characters after the last dot (the whole
input when it has no dot). -/
def lastComponentAux : List Char → List Char → List Char
  | [], acc => acc.reverse
  | c :: rest, acc =>
    if c = '.' then lastComponentAux rest []
    else lastComponentAux rest (c :: acc)

/-- canonical.split(".")[-1] from Nodule._cache_attribute: the substring after
the last dot. -/
def lastComponent (s : String) : String := String.mk (lastComponentAux s.data [])

/-- The exception classes of nodule.py, plus the built-in Python errors the code
can raise (TypeError from a bad call, AttributeError from setting a plain class
member that is not a data descriptor). -/
inductive NError
  | noMayaObjectError
  | noMayaAttributeError
  | attributeTypeError
  | invalidEnumError
  | readOnlyPropertyError
  | typeError
  | pyAttributeError
deriving DecidableEq

/-- State-changing host commands the module can issue (read-only queries are not
state changing and are not recorded here). -/
inductive HostCmd
  | setAttr (plug : String) (val : PyVal)
  | setAttrTyped (plug : String) (val : PyVal) (ty : String)
  | setAttrBool (plug : String) (b : Bool)
  | setAttrInt (plug : String) (n : Int)
  | setAttrTuple (plug : String) (val : PyVal) (ty : String)
  | setAttrArray (plug : String) (val : PyVal) (ty : String)
  | setAttrMatrix (plug : String) (val : PyVal)
  | xform (obj : String) (flag : String) (val : PyVal) (worldspace : Bool)
  | deleteAttr (plug : String)
deriving DecidableEq

/-- Abstract model of the host command layer (maya.cmds).  Each field is one of
the queries the source performs:
  lsNode obj        = cmds.ls(obj, showType=True) unpacked into (name, nodetype);
                      none models the empty result (ValueError on unpacking);
  lsAttr plug       = cmds.ls(plug, showType=True) unpacked into
                      (matched plug, attribute type string); none models the
                      empty result;
  lsUuid uuid       = first element of cmds.ls(uuid), none when the list is empty;
  enumNames at obj  = cmds.attributeQuery(at, n=obj, le=True)[0].split(":"). -/
structure Host where
  lsNode : String → Option (String × String)
  lsAttr : String → Option (String × String)
  lsUuid : String → Option String
  enumNames : String → String → List String

/-- Names of the getter closures defined inside make_descriptor.  getter is the
generic numeric/multi reader used when the type tag is absent from the table. -/
inductive GetFn
  | getter
  | enum_getter
  | vector_getter
  | matrix_getter
  | int_getter
  | tuple_getter
  | string_getter
  | unsupported_getter
deriving DecidableEq

/-- Names of the setter closures defined inside make_descriptor.
set_default_attr is the plain cmds.setAttr call used when the type tag is
absent from the table; unsupported raises ReadOnlyPropertyError. -/
inductive SetFn
  | set_bool_attr
  | set_enum_attr
  | set_typed_attr
  | set_array_attr
  | set_tuple_attr
  | set_matrix_attr
  | unsupported
  | set_default_attr
deriving DecidableEq

/-- Association-list lookup, the model of Python dict.get (the dicts built in
this module never hold duplicate keys). -/
def alookup {α : Type} : List (String × α) → String → Option α
  | [], _ => none
  | (k, v) :: rest, key => if k = key then some v else alookup rest key

/-- The set_functions dict from make_descriptor, in source order. -/
def set_functions : List (String × SetFn) :=
  [("bool", SetFn.set_bool_attr),
   ("enum", SetFn.set_enum_attr),
   ("string", SetFn.set_typed_attr),
   ("stringArray", SetFn.set_array_attr),
   ("compound", SetFn.unsupported),
   ("message", SetFn.unsupported),
   ("matrix", SetFn.set_matrix_attr),
   ("fltMatrix", SetFn.set_matrix_attr),
   ("reflectanceRGB", SetFn.unsupported),
   ("reflectance", SetFn.unsupported),
   ("spectrumRGB", SetFn.unsupported),
   ("spectrum", SetFn.unsupported),
   ("float2", SetFn.set_tuple_attr),
   ("float3", SetFn.set_tuple_attr),
   ("double2", SetFn.set_tuple_attr),
   ("double3", SetFn.set_tuple_attr),
   ("long2", SetFn.set_tuple_attr),
   ("long3", SetFn.set_tuple_attr),
   ("short2", SetFn.set_tuple_attr),
   ("short3", SetFn.set_tuple_attr),
   ("doubleArray", SetFn.set_array_attr),
   ("int32Array", SetFn.set_array_attr),
   ("vectorArray", SetFn.unsupported),
   ("nurbsCurve", SetFn.unsupported),
   ("nurbsSurface", SetFn.unsupported),
   ("mesh", SetFn.unsupported),
   ("lattice", SetFn.unsupported),
   ("pointArray", SetFn.unsupported)]

/-- The get_functions dict from make_descriptor, in source order. -/
def get_functions : List (String × GetFn) :=
  [("double3", GetFn.vector_getter),
   ("double3Linear", GetFn.vector_getter),
   ("double3Angle", GetFn.vector_getter),
   ("float3", GetFn.vector_getter),
   ("enum", GetFn.enum_getter),
   ("matrix", GetFn.matrix_getter),
   ("bool", GetFn.int_getter),
   ("short", GetFn.int_getter),
   ("byte", GetFn.int_getter),
   ("double2", GetFn.tuple_getter),
   ("float2", GetFn.tuple_getter),
   ("long2", GetFn.tuple_getter),
   ("short2", GetFn.tuple_getter),
   ("long3", GetFn.tuple_getter),
   ("int32Array", GetFn.tuple_getter),
   ("doubleArray", GetFn.tuple_getter),
   ("string", GetFn.string_getter),
   ("stringArray", GetFn.tuple_getter),
   ("vectorArray", GetFn.unsupported_getter),
   ("nurbsCurve", GetFn.unsupported_getter),
   ("nurbsSurface", GetFn.unsupported_getter),
   ("mesh", GetFn.unsupported_getter),
   ("lattice", GetFn.unsupported_getter),
   ("pointArray", GetFn.unsupported_getter)]

/-- The AnonymousDescriptor produced by make_descriptor: it remembers the
attribute name and type tag (the closure variables at_name and at_type) and the
getter/setter chosen from the dispatch tables. -/
structure Descriptor where
  atName : String
  atType : String
  getf : GetFn
  setf : SetFn
deriving DecidableEq

/-- make_descriptor(at_name, at_type): __get__ = get_functions.get(at_type, getter),
__set__ = set_functions.get(at_type, set_default_attr). -/
def make_descriptor (at_name at_type : String) : Descriptor :=
  { atName := at_name
    atType := at_type
    getf := (alookup get_functions at_type).getD GetFn.getter
    setf := (alookup set_functions at_type).getD SetFn.set_default_attr }

/-- The XformDescriptor produced by make_xform_descriptor (fields mirror the
arguments flag, return_type, worldspace, plug, readonly; returnsMatrix is true
when return_type is MMatrix). -/
structure XDesc where
  flag : String
  returnsMatrix : Bool
  worldspace : Bool
  plug : String
  readonly : Bool
deriving DecidableEq

def make_xform_descriptor (flag : String) (returnsMatrix worldspace : Bool)
    (plug : String) (readonly : Bool) : XDesc :=
  { flag := flag, returnsMatrix := returnsMatrix, worldspace := worldspace,
    plug := plug, readonly := readonly }

/-- set_enum_attr from make_descriptor: a numeric value is set as int(val);
otherwise the enum name list is fetched from the host and the value is
translated to its list position; a value at no position raises
InvalidEnumError without issuing a setAttr. -/
def set_enum_attr (host : Host) (d : Descriptor) (obj : String) (val : PyVal) :
    List HostCmd × Option NError :=
  match val with
  | PyVal.num q => ([HostCmd.setAttrInt (dotted obj d.atName) (pyInt q)], none)
  | v =>
    match pyIndex v (host.enumNames d.atName obj) with
    | some i => ([HostCmd.setAttrInt (dotted obj d.atName) (Int.ofNat i)], none)
    | none => ([], some NError.invalidEnumError)

/-- __set__ of an AnonymousDescriptor: the commands issued and the error raised,
if any.  An error with an empty command list means the setter raised before
issuing any state-changing command. -/
def descSet (host : Host) (d : Descriptor) (obj : String) (val : PyVal) :
    List HostCmd × Option NError :=
  match d.setf with
  | SetFn.set_bool_attr =>
      ([HostCmd.setAttrBool (dotted obj d.atName) (pyTruthy val)], none)
  | SetFn.set_enum_attr => set_enum_attr host d obj val
  | SetFn.set_typed_attr =>
      ([HostCmd.setAttrTyped (dotted obj d.atName) val d.atType], none)
  | SetFn.set_array_attr =>
      ([HostCmd.setAttrArray (dotted obj d.atName) val d.atType], none)
  | SetFn.set_tuple_attr =>
      ([HostCmd.setAttrTuple (dotted obj d.atName) val d.atType], none)
  | SetFn.set_matrix_attr =>
      ([HostCmd.setAttrMatrix (dotted obj d.atName) val], none)
  | SetFn.unsupported => ([], some NError.readOnlyPropertyError)
  | SetFn.set_default_attr =>
      ([HostCmd.setAttr (dotted obj d.atName) val], none)

/-- xform_setter from make_xform_descriptor: with readonly set it raises
ReadOnlyPropertyError before calling cmds.xform. -/
def xformSet (x : XDesc) (obj : String) (val : PyVal) : List HostCmd × Option NError :=
  if x.readonly then ([], some NError.readOnlyPropertyError)
  else ([HostCmd.xform obj x.flag val x.worldspace], none)

/-- An entry of a class __dict__: an AnonymousDescriptor, an XformDescriptor, or
some other class member (a plain property or method, whose get/set behaviour is
outside the attribute machinery the claims are about). -/
inductive Desc
  | anon (d : Descriptor)
  | xform (x : XDesc)
  | other (kind : String)
deriving DecidableEq

/-- __set__ dispatch over a class-dict entry.  Setting through a plain property
or method found in the class dict raises AttributeError in Python (no __set__);
it is recorded as pyAttributeError and issues nothing. -/
def descSetDesc (host : Host) (d : Desc) (obj : String) (val : PyVal) :
    List HostCmd × Option NError :=
  match d with
  | Desc.anon a => descSet host a obj val
  | Desc.xform x => xformSet x obj val
  | Desc.other _ => ([], some NError.pyAttributeError)

/-- A wrapper class: its name, its own __dict__ descriptor entries, its own
LOOKUPS dict (none when the class body does not bind LOOKUPS, in which case
Python resolves self.LOOKUPS through the base classes), and its method
resolution order as indices into the class table, the class itself first. -/
structure NoduleClass where
  name : String
  dict : List (String × Desc)
  ownLookups : Option Nat
  mro : List Nat
deriving DecidableEq

/-- A LOOKUPS dict: attribute name to cached descriptor. -/
abbrev LookupMap : Type := List (String × Descriptor)

/-- The module state: the LOOKUPS dict objects (heap cells, so that a dict can
be shared between classes exactly as Python shares the object), the class
table, and the SPECIALTIES registry. -/
structure Registry where
  heap : List LookupMap
  classes : List NoduleClass
  specialties : List (String × Nat)
deriving DecidableEq

def ownLookupsAt (cs : List NoduleClass) (j : Nat) : Option Nat :=
  (cs.get? j).bind (fun c => c.ownLookups)

/-- Resolution of the class attribute LOOKUPS along the method resolution
order: the first class in the chain that binds LOOKUPS provides the dict. -/
def firstLookups (cs : List NoduleClass) : List Nat → Option Nat
  | [] => none
  | j :: rest =>
    match ownLookupsAt cs j with
    | some i => some i
    | none => firstLookups cs rest

def lookupsId (cs : List NoduleClass) (cid : Nat) : Option Nat :=
  (cs.get? cid).bind (fun c => firstLookups cs c.mro)

/-- self.LOOKUPS.get(name) for an instance of class cid. -/
def lookupsGet (reg : Registry) (cid : Nat) (name : String) : Option Descriptor :=
  match lookupsId reg.classes cid with
  | none => none
  | some i => alookup (reg.heap.getD i []) name

/-- Mutation of the LOOKUPS dict that class cid resolves to. -/
def setLookups (reg : Registry) (cid : Nat) (f : LookupMap → LookupMap) : Registry :=
  match lookupsId reg.classes cid with
  | none => reg
  | some i => { reg with heap := reg.heap.set i (f (reg.heap.getD i [])) }

/-- Python dict assignment d[k] = v on an association list. -/
def insertAssoc {α : Type} (m : List (String × α)) (k : String) (v : α) :
    List (String × α) := (k, v) :: m

/-- self.__class__.__dict__.get(name) for class index j. -/
def dictGet (cs : List NoduleClass) (j : Nat) (name : String) : Option Desc :=
  (cs.get? j).bind (fun c => alookup c.dict name)

def mroGetAux (cs : List NoduleClass) (name : String) : List Nat → Option Desc
  | [] => none
  | j :: rest =>
    match dictGet cs j name with
    | some d => some d
    | none => mroGetAux cs name rest

/-- Normal Python attribute lookup over the class hierarchy (instance dicts of
nodules stay empty because __setattr__ is overridden, so class dicts decide). -/
def mroGet (cs : List NoduleClass) (cid : Nat) (name : String) : Option Desc :=
  (cs.get? cid).bind (fun c => mroGetAux cs name c.mro)

def ownDictGet (cs : List NoduleClass) (cid : Nat) (name : String) : Option Desc :=
  dictGet cs cid name

/-- Nodule._cache_attribute: query the attribute type through cmds.ls on the
dotted plug; an empty result raises NoMayaAttributeError (the source inspects
the ValueError message for the 0-values case); otherwise build the descriptor
and store it under both the requested name and the last dotted component of
the name the host returned. -/
def cache_attribute (host : Host) (reg : Registry) (cid : Nat)
    (self at_name : String) : Registry × Except NError Descriptor :=
  match host.lsAttr (dotted self at_name) with
  | none => (reg, Except.error NError.noMayaAttributeError)
  | some (canonFull, at_type) =>
    let canonical := lastComponent canonFull
    let d := make_descriptor at_name at_type
    (setLookups reg cid (fun m => insertAssoc (insertAssoc m at_name d) canonical d),
     Except.ok d)

/-- Result of an attribute get on a nodule instance: the registry afterwards,
the descriptor whose __get__ ran (none when the access raised), whether the
attribute-type query (cmds.ls with showType) was issued, and the error raised. -/
structure GetOut where
  reg : Registry
  used : Option Desc
  typeQueried : Bool
  error : Option NError
deriving DecidableEq

/-- Result of an attribute set: additionally the state-changing host commands
issued. -/
structure SetOut where
  reg : Registry
  used : Option Desc
  typeQueried : Bool
  cmds : List HostCmd
  error : Option NError
deriving DecidableEq

/-- Attribute get on an instance of class cid naming host object self: normal
Python lookup finds predefined class descriptors; otherwise __getattr__ runs,
which consults the own __dict__ of the class (a subset of the normal lookup, hence
already known to fail), then self.LOOKUPS, and finally _cache_attribute. -/
def getattrN (host : Host) (reg : Registry) (cid : Nat) (self name : String) : GetOut :=
  match mroGet reg.classes cid name with
  | some d => { reg := reg, used := some d, typeQueried := false, error := none }
  | none =>
    match lookupsGet reg cid name with
    | some a =>
      { reg := reg, used := some (Desc.anon a), typeQueried := false, error := none }
    | none =>
      match cache_attribute host reg cid self name with
      | (reg2, Except.ok d) =>
        { reg := reg2, used := some (Desc.anon d), typeQueried := true, error := none }
      | (reg2, Except.error e) =>
        { reg := reg2, used := none, typeQueried := true, error := some e }

/-- Attribute set: Nodule.__setattr__ intercepts every assignment; it consults
only the own __dict__ of the class (not the base classes), then self.LOOKUPS, and
finally _cache_attribute, then calls __set__ on the descriptor found. -/
def setattrN (host : Host) (reg : Registry) (cid : Nat) (self name : String)
    (val : PyVal) : SetOut :=
  match ownDictGet reg.classes cid name with
  | some d =>
    { reg := reg, used := some d, typeQueried := false,
      cmds := (descSetDesc host d self val).1, error := (descSetDesc host d self val).2 }
  | none =>
    match lookupsGet reg cid name with
    | some a =>
      { reg := reg, used := some (Desc.anon a), typeQueried := false,
        cmds := (descSet host a self val).1, error := (descSet host a self val).2 }
    | none =>
      match cache_attribute host reg cid self name with
      | (reg2, Except.ok d) =>
        { reg := reg2, used := some (Desc.anon d), typeQueried := true,
          cmds := (descSet host d self val).1, error := (descSet host d self val).2 }
      | (reg2, Except.error e) =>
        { reg := reg2, used := none, typeQueried := true, cmds := [], error := some e }

/-- register_nodule_class: SPECIALTIES[type_string] = proxy_class. -/
def register_nodule_class (reg : Registry) (type_string : String) (cid : Nat) : Registry :=
  { reg with specialties := insertAssoc reg.specialties type_string cid }

/-- The nodule factory.  cmds.ls(obj, showType=True) resolves the object; an
empty result raises NoMayaObjectError when typed, else falls back to the plain
Nodule class (index 0 by convention).  A node type with no SPECIALTIES entry
gets a freshly generated subclass named nodetype + "Nodule" with its own empty
LOOKUPS dict, registered through register_nodule_class.  The result carries the
wrapper class index and the instance string. -/
def nodule (host : Host) (reg : Registry) (obj : String) (typed : Bool) :
    Option (Nat × String) × Registry × Option NError :=
  match host.lsNode obj with
  | none =>
    if typed then (none, reg, some NError.noMayaObjectError)
    else (some (0, obj), reg, none)
  | some (obj2, nodetype) =>
    match alookup reg.specialties nodetype with
    | some cid => (some (cid, obj2), reg, none)
    | none =>
      let cid := reg.classes.length
      let wrapper : NoduleClass :=
        { name := nodetype ++ "Nodule", dict := [],
          ownLookups := some reg.heap.length, mro := [cid, 0] }
      let reg2 : Registry :=
        { heap := reg.heap ++ [([] : LookupMap)], classes := reg.classes ++ [wrapper],
          specialties := reg.specialties }
      (some (cid, obj2), register_nodule_class reg2 nodetype cid, none)

/-- nodule_from_uuid: resolve the UUID through cmds.ls; an empty result raises
NoMayaObjectError, otherwise delegate to nodule with the default typed=True. -/
def nodule_from_uuid (host : Host) (reg : Registry) (uuid : String) :
    Option (Nat × String) × Registry × Option NError :=
  match host.lsUuid uuid with
  | some target => nodule host reg target true
  | none => (none, reg, some NError.noMayaObjectError)

/-- str.join takes exactly one iterable argument; calling it with any other
number of positional arguments raises TypeError.  Joining a single string
argument interleaves the separator between its characters. -/
def strJoinCall (sep : String) (args : List String) : Except NError String :=
  match args with
  | [it] => Except.ok (String.intercalate sep (it.data.map (fun c => String.mk [c])))
  | _ => Except.error NError.typeError

/-- Nodule.delete_attribute: cmds.deleteAttr(".".join(self, name)) — str.join is
called with two positional arguments. -/
def delete_attribute (self name : String) : List HostCmd × Option NError :=
  match strJoinCall "." [self, name] with
  | Except.ok plug => ([HostCmd.deleteAttr plug], none)
  | Except.error e => ([], some e)

/-
Module-load state: the three wrapper classes defined by the source (Nodule,
TransformNodule, JointNodule) and the SPECIALTIES registry.  Class dicts list
the descriptor bindings of each class body; plain properties and methods are
recorded as Desc.other entries so that name membership is faithful (dunder
methods and the LOOKUPS binding itself, which the model tracks separately, are
not listed).
-/

def translateDesc : Descriptor := make_descriptor "translate" "double3Linear"

def rotateAxisDesc : Descriptor := make_descriptor "rotateAxis" "double3"

def rotateOrderDesc : Descriptor := make_descriptor "rotateOrder" "enum"

/-- JointNodule.joint_orient: the source passes the attribute name "scale" to
make_descriptor here. -/
def jointOrientDesc : Descriptor := make_descriptor "scale" "double3"

def local_position : XDesc := make_xform_descriptor "t" false false "translate" false

def local_rotation : XDesc := make_xform_descriptor "ro" false false "rotate" false

def local_scale : XDesc := make_xform_descriptor "scale" false false "scale" false

def local_matrix : XDesc := make_xform_descriptor "matrix" true false "matrix" false

def local_rotate_pivot : XDesc := make_xform_descriptor "rp" false false "rotatePivot" false

def local_scale_pivot : XDesc := make_xform_descriptor "sp" false false "scalePivot" false

def world_position : XDesc := make_xform_descriptor "t" false true "" false

def world_rotation : XDesc := make_xform_descriptor "ro" false true "" false

def world_scale : XDesc := make_xform_descriptor "scale" false true "" true

def world_matrix : XDesc := make_xform_descriptor "matrix" true true "worldMatrix" false

def world_rotate_pivot : XDesc := make_xform_descriptor "rp" false true "" false

def world_scale_pivot : XDesc := make_xform_descriptor "sp" false true "" false

def noduleDict : List (String × Desc) :=
  [("translate", Desc.anon translateDesc),
   ("type", Desc.other "property"),
   ("uuid", Desc.other "property"),
   ("add_attribute", Desc.other "method"),
   ("delete_attribute", Desc.other "method"),
   ("get_named_attribute", Desc.other "method"),
   ("set_named_attribute", Desc.other "method")]

def transformDict : List (String × Desc) :=
  [("local_position", Desc.xform local_position),
   ("local_rotation", Desc.xform local_rotation),
   ("local_scale", Desc.xform local_scale),
   ("local_matrix", Desc.xform local_matrix),
   ("local_rotate_pivot", Desc.xform local_rotate_pivot),
   ("local_scale_pivot", Desc.xform local_scale_pivot),
   ("world_position", Desc.xform world_position),
   ("world_rotation", Desc.xform world_rotation),
   ("world_scale", Desc.xform world_scale),
   ("world_matrix", Desc.xform world_matrix),
   ("world_rotate_pivot", Desc.xform world_rotate_pivot),
   ("world_scale_pivot", Desc.xform world_scale_pivot),
   ("rotate_axis", Desc.anon rotateAxisDesc),
   ("ra", Desc.anon rotateAxisDesc),
   ("rotate_order", Desc.anon rotateOrderDesc),
   ("ro", Desc.anon rotateOrderDesc),
   ("shape", Desc.other "property"),
   ("children", Desc.other "property"),
   ("descendants", Desc.other "property"),
   ("parent", Desc.other "property")]

def jointDict : List (String × Desc) :=
  [("joint_orient", Desc.anon jointOrientDesc),
   ("jo", Desc.anon jointOrientDesc)]

/-- The state after the module is imported.  Heap cell 0 is Nodule.LOOKUPS and
cell 1 is TransformNodule.LOOKUPS.  JointNodule binds no LOOKUPS of its own
(ownLookups = none), exactly as in the source, so self.LOOKUPS on a joint
instance resolves through the method resolution order to cell 1. -/
def initReg : Registry :=
  { heap := [[], []]
    classes :=
      [{ name := "Nodule", dict := noduleDict, ownLookups := some 0, mro := [0] },
       { name := "TransformNodule", dict := transformDict, ownLookups := some 1,
         mro := [1, 0] },
       { name := "JointNodule", dict := jointDict, ownLookups := none,
         mro := [2, 1, 0] }]
    specialties := [("transform", 1), ("joint", 2)] }

/-- A host with an empty scene: every query resolves to nothing. -/
def hostNone : Host :=
  { lsNode := fun _ => none, lsAttr := fun _ => none, lsUuid := fun _ => none,
    enumNames := fun _ _ => [] }

/-- A host whose enum attributes carry the rotate-order name list. -/
def hostEnum : Host :=
  { lsNode := fun _ => none, lsAttr := fun _ => none, lsUuid := fun _ => none,
    enumNames := fun _ _ => ["xyz", "yzx", "zxy", "xzy", "yxz", "zyx"] }

/-
Model of the Connectable mixin property definitions (locked, keyable,
channelbox, size).  A property is reduced to the getAttr flag its getter
queries and the setAttr flag its setter writes, which is all the claims about
it concern.  The class body is replayed in source order, including the
rebinding of the name channelbox by the decorator @keyable.setter.
-/

inductive QueryFlag
  | lock
  | keyable
  | cb
  | size
deriving DecidableEq

structure PyProperty where
  fget : Option QueryFlag
  fset : Option QueryFlag
deriving DecidableEq

/-- property(getter): a read-only property querying the given flag. -/
def pyProperty (g : QueryFlag) : PyProperty := { fget := some g, fset := none }

/-- p.setter(f): a new property with the same getter and the given setter. -/
def setterDec (p : PyProperty) (f : QueryFlag) : PyProperty := { p with fset := some f }

def locked_prop : PyProperty := setterDec (pyProperty QueryFlag.lock) QueryFlag.lock

def keyable_prop : PyProperty := setterDec (pyProperty QueryFlag.keyable) QueryFlag.keyable

/-- The property bound to the name channelbox by the plain @property block
(getter queries the cb flag).  It is immediately shadowed by the next binding
of the same name. -/
def channelbox_prop_shadowed : PyProperty := pyProperty QueryFlag.cb

/-- The final value of the name channelbox: the source decorates the second
channelbox function with @keyable.setter, so the binding becomes
keyable.setter(set-cb) — getter taken from keyable, setter writing cb. -/
def channelbox_prop : PyProperty := setterDec keyable_prop QueryFlag.cb

/-- Reading a property: the host flag state queried through fget. -/
def propRead (s : QueryFlag → ℚ) (p : PyProperty) : Option ℚ := p.fget.map s

/-- Writing a property: updates the flag named by fset (a property without a
setter leaves the state unchanged; Python would raise AttributeError, a case no
claim exercises). -/
def propWrite (s : QueryFlag → ℚ) (p : PyProperty) (v : ℚ) : QueryFlag → ℚ :=
  match p.fset with
  | none => s
  | some f => fun g => if g = f then v else s g

/-
List access helper lemmas (self-contained, used by the registry theorems).
-/

theorem listGetAppendLt {α : Type} :
    ∀ (l₁ l₂ : List α) (i : Nat), i < l₁.length → (l₁ ++ l₂).get? i = l₁.get? i := by
  intro l₁
  induction l₁ with
  | nil => intro l₂ i h; simp at h
  | cons a t ih =>
    intro l₂ i h
    cases i with
    | zero => rfl
    | succ j => exact ih l₂ j (Nat.lt_of_succ_lt_succ h)

theorem listGetAppendLen {α : Type} :
    ∀ (l₁ : List α) (x : α), (l₁ ++ [x]).get? l₁.length = some x := by
  intro l₁ x
  induction l₁ with
  | nil => rfl
  | cons a t ih => exact ih

theorem listGetNoneOfLe {α : Type} :
    ∀ (l : List α) (i : Nat), l.length ≤ i → l.get? i = none := by
  intro l
  induction l with
  | nil => intro i _; cases i <;> rfl
  | cons a t ih =>
    intro i h
    cases i with
    | zero => simp at h
    | succ j => exact ih j (Nat.le_of_succ_le_succ h)

theorem listLtOfGetSome {α : Type} (l : List α) (i : Nat) (x : α)
    (h : l.get? i = some x) : i < l.length := by
  by_contra hge
  rw [listGetNoneOfLe l i (Nat.le_of_not_lt hge)] at h
  exact Option.noConfusion h

theorem listGetSetNe {α : Type} :
    ∀ (l : List α) (i j : Nat) (x : α), i ≠ j → (l.set i x).get? j = l.get? j := by
  intro l
  induction l with
  | nil => intro i j x _; rfl
  | cons a t ih =>
    intro i j x hij
    cases i with
    | zero =>
      cases j with
      | zero => exact absurd rfl hij
      | succ m => rfl
    | succ n =>
      cases j with
      | zero => rfl
      | succ m => exact ih n m x (fun he => hij (congrArg Nat.succ he))

theorem listGetSetEq {α : Type} :
    ∀ (l : List α) (i : Nat) (x : α), i < l.length → (l.set i x).get? i = some x := by
  intro l
  induction l with
  | nil => intro i x h; simp at h
  | cons a t ih =>
    intro i x h
    cases i with
    | zero => rfl
    | succ j => exact ih j x (Nat.lt_of_succ_lt_succ h)

theorem listGetDSetNe {α : Type} :
    ∀ (l : List α) (i j : Nat) (x dflt : α), i ≠ j →
      (l.set i x).getD j dflt = l.getD j dflt := by
  intro l
  induction l with
  | nil => intro i j x d _; rfl
  | cons a t ih =>
    intro i j x d hij
    cases i with
    | zero =>
      cases j with
      | zero => exact absurd rfl hij
      | succ m => rfl
    | succ n =>
      cases j with
      | zero => rfl
      | succ m => exact ih n m x d (fun he => hij (congrArg Nat.succ he))

theorem listGetDSetEq {α : Type} :
    ∀ (l : List α) (i : Nat) (x dflt : α), i < l.length →
      (l.set i x).getD i dflt = x := by
  intro l
  induction l with
  | nil => intro i x d h; simp at h
  | cons a t ih =>
    intro i x d h
    cases i with
    | zero => rfl
    | succ j => exact ih j x d (Nat.lt_of_succ_lt_succ h)

theorem listGetDAppendLt {α : Type} :
    ∀ (l₁ l₂ : List α) (i : Nat) (dflt : α), i < l₁.length →
      (l₁ ++ l₂).getD i dflt = l₁.getD i dflt := by
  intro l₁
  induction l₁ with
  | nil => intro l₂ i d h; simp at h
  | cons a t ih =>
    intro l₂ i d h
    cases i with
    | zero => rfl
    | succ j => exact ih l₂ j d (Nat.lt_of_succ_lt_succ h)

theorem listGetDAppendLen {α : Type} :
    ∀ (l₁ : List α) (x dflt : α), (l₁ ++ [x]).getD l₁.length dflt = x := by
  intro l₁ x d
  induction l₁ with
  | nil => rfl
  | cons a t ih => exact ih

theorem listGetDNilOfLe {α : Type} :
    ∀ (l : List α) (i : Nat) (dflt : α), l.length ≤ i → l.getD i dflt = dflt := by
  intro l
  induction l with
  | nil => intro i d _; cases i <;> rfl
  | cons a t ih =>
    intro i d h
    cases i with
    | zero => simp at h
    | succ j => exact ih j d (Nat.le_of_succ_le_succ h)

/-
Helper lemmas for the enum setter.
-/

theorem pyIndexAux_get (s : String) :
    ∀ (xs : List String) (i : Nat), pyIndexAux s xs = some i → xs.get? i = some s := by
  intro xs
  induction xs with
  | nil => intro i h; simp [pyIndexAux] at h
  | cons e rest ih =>
    intro i h
    by_cases he : e = s
    · simp [pyIndexAux, he] at h
      subst he; subst h; rfl
    · simp [pyIndexAux, he] at h
      obtain ⟨j, hj, hji⟩ := h
      subst hji
      simpa using ih j hj

theorem pyIndexAux_none_of_not_mem (s : String) :
    ∀ xs : List String, s ∉ xs → pyIndexAux s xs = none := by
  intro xs
  induction xs with
  | nil => intro _; rfl
  | cons e rest ih =>
    intro h
    have he : e ≠ s := by rintro rfl; exact h (List.mem_cons_self e rest)
    have hr : s ∉ rest := fun hm => h (List.mem_cons_of_mem e hm)
    simp [pyIndexAux, he, ih hr]

/-- C2: make_descriptor(at_name, at_type) picks its getter and setter from the
two dispatch tables keyed by the attribute type tag: every listed tag maps to
the strategy of the source table, every tag absent from the getter table falls
back to the generic numeric/multi getter, and every tag absent from the setter
table falls back to the plain default setAttr setter. -/
theorem C2_dispatch_tables (a : String) :
    ((make_descriptor a "double3").getf = GetFn.vector_getter ∧
     (make_descriptor a "double3Linear").getf = GetFn.vector_getter ∧
     (make_descriptor a "double3Angle").getf = GetFn.vector_getter ∧
     (make_descriptor a "float3").getf = GetFn.vector_getter ∧
     (make_descriptor a "enum").getf = GetFn.enum_getter ∧
     (make_descriptor a "matrix").getf = GetFn.matrix_getter ∧
     (make_descriptor a "bool").getf = GetFn.int_getter ∧
     (make_descriptor a "short").getf = GetFn.int_getter ∧
     (make_descriptor a "byte").getf = GetFn.int_getter ∧
     (make_descriptor a "double2").getf = GetFn.tuple_getter ∧
     (make_descriptor a "float2").getf = GetFn.tuple_getter ∧
     (make_descriptor a "long2").getf = GetFn.tuple_getter ∧
     (make_descriptor a "short2").getf = GetFn.tuple_getter ∧
     (make_descriptor a "long3").getf = GetFn.tuple_getter ∧
     (make_descriptor a "int32Array").getf = GetFn.tuple_getter ∧
     (make_descriptor a "doubleArray").getf = GetFn.tuple_getter ∧
     (make_descriptor a "string").getf = GetFn.string_getter ∧
     (make_descriptor a "stringArray").getf = GetFn.tuple_getter ∧
     (make_descriptor a "vectorArray").getf = GetFn.unsupported_getter ∧
     (make_descriptor a "nurbsCurve").getf = GetFn.unsupported_getter ∧
     (make_descriptor a "nurbsSurface").getf = GetFn.unsupported_getter ∧
     (make_descriptor a "mesh").getf = GetFn.unsupported_getter ∧
     (make_descriptor a "lattice").getf = GetFn.unsupported_getter ∧
     (make_descriptor a "pointArray").getf = GetFn.unsupported_getter) ∧
    ((make_descriptor a "bool").setf = SetFn.set_bool_attr ∧
     (make_descriptor a "enum").setf = SetFn.set_enum_attr ∧
     (make_descriptor a "string").setf = SetFn.set_typed_attr ∧
     (make_descriptor a "stringArray").setf = SetFn.set_array_attr ∧
     (make_descriptor a "compound").setf = SetFn.unsupported ∧
     (make_descriptor a "message").setf = SetFn.unsupported ∧
     (make_descriptor a "matrix").setf = SetFn.set_matrix_attr ∧
     (make_descriptor a "fltMatrix").setf = SetFn.set_matrix_attr ∧
     (make_descriptor a "reflectanceRGB").setf = SetFn.unsupported ∧
     (make_descriptor a "reflectance").setf = SetFn.unsupported ∧
     (make_descriptor a "spectrumRGB").setf = SetFn.unsupported ∧
     (make_descriptor a "spectrum").setf = SetFn.unsupported ∧
     (make_descriptor a "float2").setf = SetFn.set_tuple_attr ∧
     (make_descriptor a "float3").setf = SetFn.set_tuple_attr ∧
     (make_descriptor a "double2").setf = SetFn.set_tuple_attr ∧
     (make_descriptor a "double3").setf = SetFn.set_tuple_attr ∧
     (make_descriptor a "long2").setf = SetFn.set_tuple_attr ∧
     (make_descriptor a "long3").setf = SetFn.set_tuple_attr ∧
     (make_descriptor a "short2").setf = SetFn.set_tuple_attr ∧
     (make_descriptor a "short3").setf = SetFn.set_tuple_attr ∧
     (make_descriptor a "doubleArray").setf = SetFn.set_array_attr ∧
     (make_descriptor a "int32Array").setf = SetFn.set_array_attr ∧
     (make_descriptor a "vectorArray").setf = SetFn.unsupported ∧
     (make_descriptor a "nurbsCurve").setf = SetFn.unsupported ∧
     (make_descriptor a "nurbsSurface").setf = SetFn.unsupported ∧
     (make_descriptor a "mesh").setf = SetFn.unsupported ∧
     (make_descriptor a "lattice").setf = SetFn.unsupported ∧
     (make_descriptor a "pointArray").setf = SetFn.unsupported) ∧
    (∀ t, alookup get_functions t = none → (make_descriptor a t).getf = GetFn.getter) ∧
    (∀ t, alookup set_functions t = none →
       (make_descriptor a t).setf = SetFn.set_default_attr) := by
  refine ⟨?_, ?_, ?_, ?_⟩
  · repeat' apply And.intro
    all_goals rfl
  · repeat' apply And.intro
    all_goals rfl
  · intro t h; simp [make_descriptor, h]
  · intro t h; simp [make_descriptor, h]

/-- C2 witness: a type tag in neither table gets the generic getter and the
plain default setter. -/
theorem C2_dispatch_tables_witness :
    alookup get_functions "typeId" = none ∧
    alookup set_functions "typeId" = none ∧
    (make_descriptor "foo" "typeId").getf = GetFn.getter ∧
    (make_descriptor "foo" "typeId").setf = SetFn.set_default_attr :=
  ⟨by decide, by decide,
   (C2_dispatch_tables "foo").2.2.1 "typeId" (by decide),
   (C2_dispatch_tables "foo").2.2.2 "typeId" (by decide)⟩

/-- C4: a nonexistent object makes nodule with typed=True raise
NoMayaObjectError without constructing a wrapper; nodule_from_uuid raises
NoMayaObjectError for every unresolvable UUID; with typed=False nodule returns
a plain Nodule (class index 0) for the nonexistent name. -/
theorem C4_missing_object (host : Host) (reg : Registry) :
    (∀ obj, host.lsNode obj = none →
       nodule host reg obj true = (none, reg, some NError.noMayaObjectError)) ∧
    (∀ u, host.lsUuid u = none →
       nodule_from_uuid host reg u = (none, reg, some NError.noMayaObjectError)) ∧
    (∀ obj, host.lsNode obj = none →
       nodule host reg obj false = (some (0, obj), reg, none)) := by
  refine ⟨?_, ?_, ?_⟩
  · intro obj h; simp [nodule, h]
  · intro u h; simp [nodule_from_uuid, h]
  · intro obj h; simp [nodule, h]

/-- C4 witness: the empty-scene host at concrete inputs. -/
theorem C4_missing_object_witness :
    nodule hostNone initReg "ghost" true = (none, initReg, some NError.noMayaObjectError) ∧
    nodule_from_uuid hostNone initReg "F00D-BEEF" =
      (none, initReg, some NError.noMayaObjectError) ∧
    nodule hostNone initReg "ghost" false = (some (0, "ghost"), initReg, none) :=
  ⟨(C4_missing_object hostNone initReg).1 "ghost" rfl,
   (C4_missing_object hostNone initReg).2.1 "F00D-BEEF" rfl,
   (C4_missing_object hostNone initReg).2.2 "ghost" rfl⟩

/-- C6: setting an enum attribute with a numeric value issues setAttr with the
integer form of the value and consults no enum list; a string value equal to an
enum name is translated to the list position of that name before setting; any other
value raises InvalidEnumError and issues no state-changing command. -/
theorem C6_enum_setter (host : Host) (a obj : String) :
    (∀ q : ℚ, descSet host (make_descriptor a "enum") obj (PyVal.num q)
        = ([HostCmd.setAttrInt (dotted obj a) (pyInt q)], none)) ∧
    (∀ s i, pyIndexAux s (host.enumNames a obj) = some i →
       descSet host (make_descriptor a "enum") obj (PyVal.str s)
           = ([HostCmd.setAttrInt (dotted obj a) (Int.ofNat i)], none)
         ∧ (host.enumNames a obj).get? i = some s) ∧
    (∀ s, s ∉ host.enumNames a obj →
       descSet host (make_descriptor a "enum") obj (PyVal.str s)
           = ([], some NError.invalidEnumError)) := by
  refine ⟨fun q => rfl, ?_, ?_⟩
  · intro s i h
    constructor
    · show set_enum_attr host (make_descriptor a "enum") obj (PyVal.str s) = _
      simp [set_enum_attr, pyIndex, make_descriptor, h]
    · exact pyIndexAux_get s _ i h
  · intro s hs
    have hn := pyIndexAux_none_of_not_mem s _ hs
    show set_enum_attr host (make_descriptor a "enum") obj (PyVal.str s) = _
    simp [set_enum_attr, pyIndex, make_descriptor, hn]

/-- C6 witness: the rotate-order enum list at concrete values. -/
theorem C6_enum_setter_witness :
    descSet hostEnum (make_descriptor "rotateOrder" "enum") "pCube1" (PyVal.num 2)
        = ([HostCmd.setAttrInt "pCube1.rotateOrder" 2], none) ∧
    descSet hostEnum (make_descriptor "rotateOrder" "enum") "pCube1" (PyVal.str "yzx")
        = ([HostCmd.setAttrInt "pCube1.rotateOrder" 1], none) ∧
    descSet hostEnum (make_descriptor "rotateOrder" "enum") "pCube1" (PyVal.str "bogus")
        = ([], some NError.invalidEnumError) :=
  ⟨(C6_enum_setter hostEnum "rotateOrder" "pCube1").1 2,
   ((C6_enum_setter hostEnum "rotateOrder" "pCube1").2.1 "yzx" 1 (by decide)).1,
   (C6_enum_setter hostEnum "rotateOrder" "pCube1").2.2 "bogus" (by decide)⟩

/-- C7: every type tag that maps to the unsupported setter strategy raises
ReadOnlyPropertyError on assignment with no state-changing command, and so does
the readonly xform descriptor world_scale. -/
theorem C7_read_only_setters :
    (∀ (host : Host) (a obj : String) (val : PyVal),
       descSet host (make_descriptor a "message") obj val
         = ([], some NError.readOnlyPropertyError)) ∧
    (∀ (host : Host) (a obj : String) (val : PyVal),
       descSet host (make_descriptor a "compound") obj val
         = ([], some NError.readOnlyPropertyError)) ∧
    (∀ (host : Host) (a obj : String) (val : PyVal),
       descSet host (make_descriptor a "reflectance") obj val
         = ([], some NError.readOnlyPropertyError)) ∧
    (∀ (host : Host) (a obj : String) (val : PyVal),
       descSet host (make_descriptor a "spectrum") obj val
         = ([], some NError.readOnlyPropertyError)) ∧
    (∀ (host : Host) (a obj : String) (val : PyVal),
       descSet host (make_descriptor a "vectorArray") obj val
         = ([], some NError.readOnlyPropertyError)) ∧
    (∀ (host : Host) (a obj : String) (val : PyVal),
       descSet host (make_descriptor a "nurbsCurve") obj val
         = ([], some NError.readOnlyPropertyError)) ∧
    (∀ (host : Host) (a obj : String) (val : PyVal),
       descSet host (make_descriptor a "nurbsSurface") obj val
         = ([], some NError.readOnlyPropertyError)) ∧
    (∀ (host : Host) (a obj : String) (val : PyVal),
       descSet host (make_descriptor a "mesh") obj val
         = ([], some NError.readOnlyPropertyError)) ∧
    (∀ (host : Host) (a obj : String) (val : PyVal),
       descSet host (make_descriptor a "lattice") obj val
         = ([], some NError.readOnlyPropertyError)) ∧
    (∀ (host : Host) (a obj : String) (val : PyVal),
       descSet host (make_descriptor a "pointArray") obj val
         = ([], some NError.readOnlyPropertyError)) ∧
    (∀ (obj : String) (val : PyVal),
       world_scale.readonly = true ∧
       xformSet world_scale obj val = ([], some NError.readOnlyPropertyError)) := by
  refine ⟨?_, ?_, ?_, ?_, ?_, ?_, ?_, ?_, ?_, ?_, ?_⟩
  all_goals intro _ _; try intro _ _
  all_goals first
    | rfl
    | exact ⟨rfl, rfl⟩

/-- C9: the name channelbox ends up bound to a property whose getter is the
keyable getter (the decorator @keyable.setter builds it from keyable), so
reading channelbox reads the keyable flag; its setter writes the cb flag, so a
channelbox write followed by a channelbox read returns the keyable flag value,
not the value written to cb. -/
theorem C9_channelbox (s : QueryFlag → ℚ) (v : ℚ) :
    propRead s channelbox_prop = propRead s keyable_prop ∧
    channelbox_prop.fget = some QueryFlag.keyable ∧
    channelbox_prop.fset = some QueryFlag.cb ∧
    propWrite s channelbox_prop v QueryFlag.cb = v ∧
    propRead (propWrite s channelbox_prop v) channelbox_prop
      = some (s QueryFlag.keyable) := by
  refine ⟨rfl, rfl, rfl, ?_, ?_⟩
  · simp [propWrite, channelbox_prop, keyable_prop, setterDec, pyProperty]
  · simp [propWrite, propRead, channelbox_prop, keyable_prop, setterDec, pyProperty]

/-- C10: delete_attribute calls str.join with two positional arguments, which
raises TypeError before any host command is issued, for every instance and
attribute name. -/
theorem C10_delete_attribute (self name : String) :
    delete_attribute self name = ([], some NError.typeError) := rfl

/-- C5: for an attribute name that is neither a defined class descriptor nor in
the LOOKUPS cache, and which does not exist on the underlying host object, the
get and the set both raise NoMayaAttributeError after the failed type query,
issue no state-changing command, and leave the registry (hence every LOOKUPS
cache) unchanged. -/
theorem C5_missing_attribute (host : Host) (reg : Registry) (cid : Nat)
    (self name : String)
    (h1 : mroGet reg.classes cid name = none)
    (h2 : ownDictGet reg.classes cid name = none)
    (h3 : lookupsGet reg cid name = none)
    (h4 : host.lsAttr (dotted self name) = none) :
    getattrN host reg cid self name
      = { reg := reg, used := none, typeQueried := true,
          error := some NError.noMayaAttributeError } ∧
    ∀ val, setattrN host reg cid self name val
      = { reg := reg, used := none, typeQueried := true, cmds := [],
          error := some NError.noMayaAttributeError } := by
  constructor
  · simp [getattrN, h1, h3, cache_attribute, h4]
  · intro val
    simp [setattrN, h2, h3, cache_attribute, h4]

/-- C5 witness: a plain Nodule instance in an empty scene, attribute "blah". -/
theorem C5_missing_attribute_witness :
    getattrN hostNone initReg 0 "pCube1" "blah"
      = { reg := initReg, used := none, typeQueried := true,
          error := some NError.noMayaAttributeError } ∧
    setattrN hostNone initReg 0 "pCube1" "blah" (PyVal.num 0)
      = { reg := initReg, used := none, typeQueried := true, cmds := [],
          error := some NError.noMayaAttributeError } :=
  ⟨(C5_missing_attribute hostNone initReg 0 "pCube1" "blah"
      (by decide) (by decide) (by decide) rfl).1,
   (C5_missing_attribute hostNone initReg 0 "pCube1" "blah"
      (by decide) (by decide) (by decide) rfl).2 (PyVal.num 0)⟩

/-- A host holding one joint with a radius attribute. -/
def hostJoint : Host :=
  { lsNode := fun o => if o = "joint1" then some ("joint1", "joint") else none,
    lsAttr := fun p =>
      if p = "joint1.radius" then some ("joint1.radius", "doubleLinear") else none,
    lsUuid := fun _ => none,
    enumNames := fun _ _ => [] }

/-- C1: the caching machinery works as claimed for the first and later accesses,
but the cache is not scoped per wrapper class: JointNodule binds no LOOKUPS of
its own, so self.LOOKUPS on a joint instance resolves to the TransformNodule
dict (heap cell 1).  Caching the attribute radius through a JointNodule
instance makes the entry visible to every TransformNodule instance, which then
reuses it without a type query — contradicting the per-class scoping stated by
the claim and by the comment in the source class body. -/
theorem C1_joint_cache_shared_with_transform :
    (initReg.classes.get? 2).map NoduleClass.ownLookups = some none ∧
    lookupsId initReg.classes 2 = some 1 ∧
    lookupsId initReg.classes 1 = some 1 ∧
    (getattrN hostJoint initReg 2 "joint1" "radius").typeQueried = true ∧
    (getattrN hostJoint initReg 2 "joint1" "radius").error = none ∧
    (getattrN hostJoint initReg 2 "joint1" "radius").used
      = some (Desc.anon (make_descriptor "radius" "doubleLinear")) ∧
    lookupsGet (getattrN hostJoint initReg 2 "joint1" "radius").reg 2 "radius"
      = some (make_descriptor "radius" "doubleLinear") ∧
    lookupsGet (getattrN hostJoint initReg 2 "joint1" "radius").reg 1 "radius"
      = some (make_descriptor "radius" "doubleLinear") ∧
    (getattrN hostJoint (getattrN hostJoint initReg 2 "joint1" "radius").reg
        1 "pCube1" "radius").typeQueried = false ∧
    (getattrN hostJoint (getattrN hostJoint initReg 2 "joint1" "radius").reg
        1 "pCube1" "radius").used
      = some (Desc.anon (make_descriptor "radius" "doubleLinear")) := by
  repeat' apply And.intro
  all_goals rfl

/-- A host with two mesh shapes, a node type with no SPECIALTIES entry. -/
def hostMesh : Host :=
  { lsNode := fun o =>
      if o = "pCubeShape1" then some ("pCubeShape1", "mesh")
      else if o = "pCubeShape2" then some ("pCubeShape2", "mesh")
      else none,
    lsAttr := fun _ => none,
    lsUuid := fun _ => none,
    enumNames := fun _ _ => [] }

/-- C3: for an existing object, nodule returns an instance of the SPECIALTIES
class of its node type when one is registered; otherwise it generates a fresh
Nodule subclass named nodetype + "Nodule" with its own empty LOOKUPS dict,
registers it, and a later call for another object of the same type reuses the
generated class without creating anything new. -/
theorem C3_factory (host : Host) (reg : Registry) (obj obj2 t : String)
    (hls : host.lsNode obj = some (obj2, t)) :
    (∀ cid, alookup reg.specialties t = some cid →
       nodule host reg obj true = (some (cid, obj2), reg, none)) ∧
    (alookup reg.specialties t = none →
       (nodule host reg obj true).1 = some (reg.classes.length, obj2) ∧
       (nodule host reg obj true).2.2 = none ∧
       ((nodule host reg obj true).2.1.classes.get? reg.classes.length).map
           (fun c => (c.name, c.dict, c.ownLookups, c.mro))
         = some (t ++ "Nodule", [], some reg.heap.length, [reg.classes.length, 0]) ∧
       (∀ k, lookupsGet (nodule host reg obj true).2.1 reg.classes.length k = none) ∧
       alookup (nodule host reg obj true).2.1.specialties t
         = some reg.classes.length ∧
       (∀ obj3 obj4, host.lsNode obj3 = some (obj4, t) →
          nodule host (nodule host reg obj true).2.1 obj3 true
            = (some (reg.classes.length, obj4), (nodule host reg obj true).2.1,
               none))) := by
  constructor
  · intro cid hcid
    simp [nodule, hls, hcid]
  · intro hmiss
    have hstep :
        nodule host reg obj true
          = (some (reg.classes.length, obj2),
             { heap := reg.heap ++ [([] : LookupMap)],
               classes := reg.classes ++
                 [{ name := t ++ "Nodule", dict := [],
                    ownLookups := some reg.heap.length,
                    mro := [reg.classes.length, 0] }],
               specialties := insertAssoc reg.specialties t reg.classes.length },
             none) := by
      simp [nodule, hls, hmiss, register_nodule_class]
    refine ⟨by rw [hstep], by rw [hstep], ?_, ?_, ?_, ?_⟩
    · rw [hstep]
      simp [listGetAppendLen]
    · intro k
      rw [hstep]
      have h1 : (reg.classes ++
            [({ name := t ++ "Nodule", dict := [],
                ownLookups := some reg.heap.length,
                mro := [reg.classes.length, 0] } : NoduleClass)]).get? reg.classes.length
          = some ({ name := t ++ "Nodule", dict := [],
                    ownLookups := some reg.heap.length,
                    mro := [reg.classes.length, 0] } : NoduleClass) := listGetAppendLen _ _
      have h2 : (reg.heap ++ [([] : LookupMap)]).getD reg.heap.length ([] : LookupMap)
          = ([] : LookupMap) := listGetDAppendLen _ _ _
      simp [lookupsGet, lookupsId, h1, firstLookups, ownLookupsAt, h2, alookup]
    · rw [hstep]
      simp [insertAssoc, alookup]
    · intro obj3 obj4 hls3
      rw [hstep]
      simp [nodule, hls3, insertAssoc, alookup]

/-- C3 witness: two mesh shapes against the module-load registry: the first
call generates and registers class index 3 named meshNodule; the second call
reuses it. -/
theorem C3_factory_witness :
    (nodule hostMesh initReg "pCubeShape1" true).1 = some (3, "pCubeShape1") ∧
    ((nodule hostMesh initReg "pCubeShape1" true).2.1.classes.get? 3).map
        (fun c => (c.name, c.dict, c.ownLookups, c.mro))
      = some ("meshNodule", [], some 2, [3, 0]) ∧
    nodule hostMesh (nodule hostMesh initReg "pCubeShape1" true).2.1 "pCubeShape2" true
      = (some (3, "pCubeShape2"), (nodule hostMesh initReg "pCubeShape1" true).2.1,
         none) :=
  ⟨((C3_factory hostMesh initReg "pCubeShape1" "pCubeShape1" "mesh" rfl).2 rfl).1,
   ((C3_factory hostMesh initReg "pCubeShape1" "pCubeShape1" "mesh" rfl).2 rfl).2.2.1,
   ((C3_factory hostMesh initReg "pCubeShape1" "pCubeShape1" "mesh" rfl).2
      rfl).2.2.2.2.2 "pCubeShape2" "pCubeShape2" (by decide)⟩

/-
Claim C8: cache persistence.  The double-keyed store in _cache_attribute can
overwrite an existing entry when the host reports a canonical short name that
differs from the requested alias, so the claim is settled as corrected: a
counterexample host below replaces an entry, and monotonicity is proved for
hosts that echo the requested attribute name back as the canonical name.
-/

/-- A host that resolves the long alias translateX of the attribute tx to the
canonical short plug pCube1.tx. -/
def hostCanonical : Host :=
  { lsNode := fun _ => none,
    lsAttr := fun p =>
      if p = "pCube1.tx" then some ("pCube1.tx", "doubleLinear")
      else if p = "pCube1.translateX" then some ("pCube1.tx", "doubleLinear")
      else none,
    lsUuid := fun _ => none,
    enumNames := fun _ _ => [] }

/-- C8 counterexample: caching tx through a TransformNodule instance and then
caching the alias translateX overwrites the existing entry under the key tx
with a different descriptor, so an attribute get can replace an existing
LOOKUPS entry. -/
theorem C8_cache_entry_replaced :
    lookupsGet (getattrN hostCanonical initReg 1 "pCube1" "tx").reg 1 "tx"
      = some (make_descriptor "tx" "doubleLinear") ∧
    lookupsGet (getattrN hostCanonical
        (getattrN hostCanonical initReg 1 "pCube1" "tx").reg 1 "pCube1" "translateX").reg
        1 "tx"
      = some (make_descriptor "translateX" "doubleLinear") ∧
    make_descriptor "translateX" "doubleLinear" ≠ make_descriptor "tx" "doubleLinear" := by
  refine ⟨rfl, rfl, ?_⟩
  decide

theorem listMemOfGetSome {α : Type} :
    ∀ (l : List α) (i : Nat) (x : α), l.get? i = some x → x ∈ l := by
  intro l
  induction l with
  | nil => intro i x h; cases i <;> exact Option.noConfusion h
  | cons a t ih =>
    intro i x h
    cases i with
    | zero =>
      cases h
      exact List.mem_cons_self a t
    | succ j => exact List.mem_cons_of_mem a (ih j x h)

/-- Wellformed registry: every method-resolution-order index is in range. -/
def regWF (reg : Registry) : Prop :=
  ∀ c ∈ reg.classes, ∀ j ∈ c.mro, j < reg.classes.length

instance (reg : Registry) : Decidable (regWF reg) := by
  unfold regWF
  infer_instance

theorem firstLookupsAppend (cs ext : List NoduleClass) :
    ∀ mro : List Nat, (∀ j ∈ mro, j < cs.length) →
      firstLookups (cs ++ ext) mro = firstLookups cs mro := by
  intro mro
  induction mro with
  | nil => intro _; rfl
  | cons j rest ih =>
    intro hb
    have hj : j < cs.length := hb j (List.mem_cons_self j rest)
    have hrest : ∀ x ∈ rest, x < cs.length :=
      fun x hx => hb x (List.mem_cons_of_mem j hx)
    have hOwn : ownLookupsAt (cs ++ ext) j = ownLookupsAt cs j := by
      unfold ownLookupsAt
      rw [listGetAppendLt cs ext j hj]
    unfold firstLookups
    rw [hOwn]
    cases h2 : ownLookupsAt cs j with
    | some i => rfl
    | none => exact ih hrest

theorem lookupsIdAppend (cs ext : List NoduleClass) (cid i : Nat)
    (hWFc : ∀ c ∈ cs, ∀ j ∈ c.mro, j < cs.length)
    (h : lookupsId cs cid = some i) :
    lookupsId (cs ++ ext) cid = some i := by
  unfold lookupsId at h ⊢
  cases hc : cs.get? cid with
  | none =>
    rw [hc] at h
    exact absurd h (by simp)
  | some c =>
    rw [hc] at h
    have hlt : cid < cs.length := listLtOfGetSome cs cid c hc
    rw [listGetAppendLt cs ext cid hlt, hc]
    have hmro := hWFc c (listMemOfGetSome cs cid c hc)
    show firstLookups (cs ++ ext) c.mro = some i
    rw [firstLookupsAppend cs ext c.mro hmro]
    exact h

/-- Inserting a previously uncached key (twice, as the double assignment in
_cache_attribute does) into the LOOKUPS dict of some class preserves every
existing entry of every LOOKUPS dict, shared or not. -/
theorem setLookupsInsertPreserves (reg : Registry) (cid : Nat) (name : String)
    (d : Descriptor) (hmiss : lookupsGet reg cid name = none)
    (cid2 : Nat) (k : String) (dd : Descriptor)
    (hpre : lookupsGet reg cid2 k = some dd) :
    lookupsGet
      (setLookups reg cid (fun m => insertAssoc (insertAssoc m name d) name d))
      cid2 k = some dd := by
  unfold setLookups
  cases hid : lookupsId reg.classes cid with
  | none =>
    simp only [hid]
    exact hpre
  | some i =>
    simp only [hid]
    unfold lookupsGet at hpre hmiss ⊢
    rw [hid] at hmiss
    dsimp only [] at hmiss ⊢
    cases hid2 : lookupsId reg.classes cid2 with
    | none =>
      rw [hid2] at hpre
      simp at hpre
    | some i2 =>
      rw [hid2] at hpre
      dsimp only [] at hpre ⊢
      by_cases hii : i = i2
      · subst hii
        have hlt : i < reg.heap.length := by
          by_contra hge
          rw [listGetDNilOfLe reg.heap i ([] : LookupMap) (Nat.le_of_not_lt hge)] at hpre
          exact absurd hpre (by simp [alookup])
        rw [listGetDSetEq reg.heap i _ ([] : LookupMap) hlt]
        have hkne : ¬ (name = k) := by
          intro he
          rw [he] at hmiss
          rw [hmiss] at hpre
          exact Option.noConfusion hpre
        simp only [insertAssoc, alookup, if_neg hkne]
        exact hpre
      · rw [listGetDSetNe reg.heap i i2 _ ([] : LookupMap) hii]
        exact hpre

/-- For a host that reports the requested attribute name back as the canonical
name, _cache_attribute preserves every existing cache entry. -/
theorem cachePreserves (host : Host)
    (hEcho : ∀ self name full ty,
      host.lsAttr (dotted self name) = some (full, ty) → lastComponent full = name)
    (reg : Registry) (cid : Nat) (self name : String)
    (hmiss : lookupsGet reg cid name = none)
    (cid2 : Nat) (k : String) (dd : Descriptor)
    (hpre : lookupsGet reg cid2 k = some dd) :
    lookupsGet (cache_attribute host reg cid self name).1 cid2 k = some dd := by
  unfold cache_attribute
  cases hls : host.lsAttr (dotted self name) with
  | none =>
    simp only [hls]
    exact hpre
  | some pr =>
    obtain ⟨full, ty⟩ := pr
    have hcanon : lastComponent full = name := hEcho self name full ty hls
    simp only [hls, hcanon]
    exact setLookupsInsertPreserves reg cid name (make_descriptor name ty) hmiss cid2 k dd hpre

/-- C8 (amended): no operation removes a cache entry, and for hosts that echo
the requested name as the canonical name no operation replaces one either:
every attribute get, every attribute set and every factory call maps an
existing LOOKUPS entry to itself.  (Without the echo condition an entry can be
replaced at its canonical-name key, as C8_cache_entry_replaced shows.) -/
theorem C8_cache_monotone (host : Host)
    (hEcho : ∀ self name full ty,
      host.lsAttr (dotted self name) = some (full, ty) → lastComponent full = name)
    (reg : Registry) (hWF : regWF reg) (cid2 : Nat) (k : String) (dd : Descriptor)
    (hpre : lookupsGet reg cid2 k = some dd) :
    (∀ cid self name,
       lookupsGet (getattrN host reg cid self name).reg cid2 k = some dd) ∧
    (∀ cid self name val,
       lookupsGet (setattrN host reg cid self name val).reg cid2 k = some dd) ∧
    (∀ obj typed, lookupsGet (nodule host reg obj typed).2.1 cid2 k = some dd) := by
  refine ⟨?_, ?_, ?_⟩
  · intro cid self name
    unfold getattrN
    cases h1 : mroGet reg.classes cid name with
    | some d => simp only [h1]; exact hpre
    | none =>
      simp only [h1]
      cases h2 : lookupsGet reg cid name with
      | some a => simp only [h2]; exact hpre
      | none =>
        simp only [h2]
        have hca := cachePreserves host hEcho reg cid self name h2 cid2 k dd hpre
        cases hc : cache_attribute host reg cid self name with
        | mk reg2 res =>
          rw [hc] at hca
          cases res with
          | ok d => simp only []; exact hca
          | error e => simp only []; exact hca
  · intro cid self name val
    unfold setattrN
    cases h1 : ownDictGet reg.classes cid name with
    | some d => simp only [h1]; exact hpre
    | none =>
      simp only [h1]
      cases h2 : lookupsGet reg cid name with
      | some a => simp only [h2]; exact hpre
      | none =>
        simp only [h2]
        have hca := cachePreserves host hEcho reg cid self name h2 cid2 k dd hpre
        cases hc : cache_attribute host reg cid self name with
        | mk reg2 res =>
          rw [hc] at hca
          cases res with
          | ok d => simp only []; exact hca
          | error e => simp only []; exact hca
  · intro obj typed
    unfold nodule
    cases hls : host.lsNode obj with
    | none =>
      cases typed <;> simp only [hls] <;> exact hpre
    | some pr =>
      obtain ⟨o2, nt⟩ := pr
      cases hsp : alookup reg.specialties nt with
      | some cid => simp only [hls, hsp]; exact hpre
      | none =>
        simp only [hls, hsp, register_nodule_class]
        unfold lookupsGet at hpre ⊢
        cases hid2 : lookupsId reg.classes cid2 with
        | none =>
          rw [hid2] at hpre
          simp at hpre
        | some i2 =>
          rw [hid2] at hpre
          dsimp only [] at hpre
          have hWFc : ∀ c ∈ reg.classes, ∀ j ∈ c.mro, j < reg.classes.length := hWF
          have hstable := lookupsIdAppend reg.classes
            [{ name := nt ++ "Nodule", dict := [],
               ownLookups := some reg.heap.length,
               mro := [reg.classes.length, 0] }] cid2 i2 hWFc hid2
          rw [hstable]
          dsimp only []
          have hlt : i2 < reg.heap.length := by
            by_contra hge
            rw [listGetDNilOfLe reg.heap i2 ([] : LookupMap) (Nat.le_of_not_lt hge)] at hpre
            exact absurd hpre (by simp [alookup])
          rw [listGetDAppendLt reg.heap [([] : LookupMap)] i2 ([] : LookupMap) hlt]
          exact hpre

/-- A one-class registry whose base LOOKUPS dict already caches one entry. -/
def regSeed : Registry :=
  { heap := [[("cached", make_descriptor "cached" "double")]],
    classes := [{ name := "Nodule", dict := [], ownLookups := some 0, mro := [0] }],
    specialties := [] }

/-- C8 witness for the amended theorem: a seeded cache survives a get, a set and
a factory call against the empty-scene host (which trivially echoes canonical
names). -/
theorem C8_cache_monotone_witness :
    lookupsGet ((getattrN hostNone regSeed 0 "pSphere1" "foo").reg) 0 "cached"
      = some (make_descriptor "cached" "double") ∧
    lookupsGet ((setattrN hostNone regSeed 0 "pSphere1" "foo" (PyVal.num 1)).reg)
      0 "cached" = some (make_descriptor "cached" "double") ∧
    lookupsGet ((nodule hostNone regSeed "pSphere1" false).2.1) 0 "cached"
      = some (make_descriptor "cached" "double") :=
  ⟨(C8_cache_monotone hostNone (fun _ _ _ _ h => Option.noConfusion h) regSeed
      (by decide) 0 "cached" (make_descriptor "cached" "double") rfl).1 0 "pSphere1" "foo",
   (C8_cache_monotone hostNone (fun _ _ _ _ h => Option.noConfusion h) regSeed
      (by decide) 0 "cached" (make_descriptor "cached" "double") rfl).2.1
      0 "pSphere1" "foo" (PyVal.num 1),
   (C8_cache_monotone hostNone (fun _ _ _ _ h => Option.noConfusion h) regSeed
      (by decide) 0 "cached" (make_descriptor "cached" "double") rfl).2.2
      "pSphere1" false⟩

end Nodule
